import Mathlib

/-!
Verification of the lead-generation pipeline: normalization, deduplication,
and enrichment stages, embedded shallowly from the Python sources
(data_processor.py, google_sheets_manager.py, email_finder.py,
ai_compliment_generator.py).

Strings are modelled as lists of characters (`Str`); the Python
regular-expression and string operations used by the source are embedded as
executable character-list functions.  Fuel-based scanners use the string
length as fuel, which is always sufficient since each step either consumes
at least one character or terminates.
-/

/-- Character strings, modelled as lists of characters. -/
abbrev Str := List Char

/-- Whitespace characters recognised by Python's default split/strip and `\s`. -/
def isSpaceChar (c : Char) : Bool :=
  c = ' ' || c = '\t' || c = '\n' || c = '\x0d' || c = '\x0b' || c = '\x0c'

/-- ASCII word characters, as matched by the regex class `\w` on this data. -/
def isWordChar (c : Char) : Bool :=
  ('a' ≤ c && c ≤ 'z') || ('A' ≤ c && c ≤ 'Z') || ('0' ≤ c && c ≤ '9') || c = '_'

/-- ASCII lower-casing of one character, as `str.lower()` acts on this data. -/
def lowerChar (c : Char) : Char :=
  if 'A' ≤ c && c ≤ 'Z' then Char.ofNat (c.toNat + 32) else c

/-- Lower-casing of a string (`str.lower()`). -/
def lowerStr (s : Str) : Str := s.map lowerChar

/-- Does `p` occur at the start of `s` (case-sensitive)? -/
def startsWithL : Str → Str → Bool
  | _, [] => true
  | [], _ :: _ => false
  | c :: cs, d :: ds => c = d && startsWithL cs ds

/-- Does `p` occur at the start of `s`, comparing case-insensitively? -/
def ciStartsWith : Str → Str → Bool
  | _, [] => true
  | [], _ :: _ => false
  | c :: cs, d :: ds => lowerChar c = lowerChar d && ciStartsWith cs ds

/-- Substring test (`needle in haystack` in Python). -/
def containsSub (needle : Str) : Str → Bool
  | [] => startsWithL [] needle
  | c :: rest => startsWithL (c :: rest) needle || containsSub needle rest

/-- One step of `str.replace`: scan `s`, replacing every non-overlapping
occurrence of `pat` by `rep`, left to right; `fuel` bounds the recursion and
is always given as the string length plus one. -/
def replaceAllFuel (pat rep : Str) : Nat → Str → Str
  | 0, s => s
  | _ + 1, [] => []
  | fuel + 1, c :: rest =>
    if pat ≠ [] && startsWithL (c :: rest) pat then
      rep ++ replaceAllFuel pat rep fuel (List.drop pat.length (c :: rest))
    else
      c :: replaceAllFuel pat rep fuel rest

/-- Python's `s.replace(pat, rep)`: replace every occurrence, left to right. -/
def replaceAll (pat rep s : Str) : Str :=
  replaceAllFuel pat rep (s.length + 1) s

/-- One scan of `re.sub(rf'\b{suffix}\b', '', s, flags=IGNORECASE)` for a
suffix made of word characters: remove every occurrence of `suffix` that is
flanked by word boundaries, comparing case-insensitively.  `prevW` records
whether the previously scanned character was a word character. -/
def removeWordCIFuel (suffix : Str) : Nat → Bool → Str → Str
  | 0, _, s => s
  | _ + 1, _, [] => []
  | fuel + 1, prevW, c :: rest =>
    if !prevW && suffix ≠ [] && ciStartsWith (c :: rest) suffix &&
        (match List.drop suffix.length (c :: rest) with
         | [] => true
         | d :: _ => !isWordChar d) then
      removeWordCIFuel suffix fuel true (List.drop suffix.length (c :: rest))
    else
      c :: removeWordCIFuel suffix fuel (isWordChar c) rest

/-- Whole-word, case-insensitive removal of `suffix` from `s`
(`re.sub(rf'\b{suffix}\b', '', s, flags=re.IGNORECASE)`). -/
def removeWordCI (suffix s : Str) : Str :=
  removeWordCIFuel suffix (s.length + 1) false s

/-- Python's `str.split()` helper: `acc` holds the reversed current token. -/
def splitWSAux : Str → Str → List Str
  | acc, [] => if acc = [] then [] else [acc.reverse]
  | acc, c :: rest =>
    if isSpaceChar c then
      if acc = [] then splitWSAux [] rest else acc.reverse :: splitWSAux [] rest
    else
      splitWSAux (c :: acc) rest

/-- Python's `str.split()` with no argument: split on whitespace runs,
dropping empty tokens. -/
def splitWS (s : Str) : List Str := splitWSAux [] s

/-- Python's `str.strip()`: drop whitespace from both ends. -/
def stripWS (s : Str) : Str :=
  ((s.dropWhile isSpaceChar).reverse.dropWhile isSpaceChar).reverse

/-- Collapse each whitespace run to a single space
(`re.sub(r'\s+', ' ', s)`); `prevSp` records whether the previous character
was whitespace. -/
def collapseWSAux : Bool → Str → Str
  | _, [] => []
  | prevSp, c :: rest =>
    if isSpaceChar c then
      if prevSp then collapseWSAux true rest else ' ' :: collapseWSAux true rest
    else
      c :: collapseWSAux false rest

/-- Collapse whitespace runs to single spaces (`re.sub(r'\s+', ' ', s)`). -/
def collapseWS (s : Str) : Str := collapseWSAux false s

/-- Strip a trailing run of commas and whitespace
(`re.sub(r'[,\s]+$', '', s)`). -/
def stripTrailingCommaWS (s : Str) : Str :=
  (s.reverse.dropWhile (fun c => c = ',' || isSpaceChar c)).reverse

/-- First maximal run of digits in `s` (`re.findall(r'\d+', s)` taken at
index 0), or `none` when `s` has no digit. -/
def firstDigitRun : Str → Option Str
  | [] => none
  | c :: rest =>
    if c.isDigit then some (c :: rest.takeWhile Char.isDigit)
    else firstDigitRun rest

/-- Numeric value of a digit string (`int(...)` on a digit run). -/
def digitsToNat (s : Str) : Nat :=
  s.foldl (fun acc c => acc * 10 + (c.toNat - '0'.toNat)) 0

/-! ## data_processor.py -/

/-- Value of the `employee_count` key on a raw posting: absent (`None`),
free-text string, or an integer. -/
inductive EmpVal where
  | absent : EmpVal
  | str (s : Str) : EmpVal
  | int (n : Int) : EmpVal
deriving DecidableEq, Repr

/-- A raw job posting record, with the keys read by `DataProcessor`.  Missing
string keys are the empty string (`dict.get(k, '')`); the two keys written by
`_clean_company_names` are `Option`s, absent until that step runs. -/
structure Job where
  employee_count : EmpVal := .absent
  company_name : Str := []
  company_linkedin_url : Str := []
  job_poster_name : Str := []
  job_poster_title : Str := []
  company_website : Str := []
  job_title : Str := []
  job_location : Str := []
  company_industry : Str := []
  job_url : Str := []
  posted_date : Str := []
  scraped_at : Str := []
  company_name_cleaned : Option Str := none
  company_name_original : Option Str := none
deriving DecidableEq, Repr

/-- The corporate-suffix vocabulary of `DataProcessor.company_suffixes`. -/
def company_suffixes : List Str :=
  ["Inc".data, "LLC".data, "Ltd".data, "LTD".data, "Corp".data,
   "Corporation".data, "Company".data, "Co".data, "Limited".data,
   "Incorporated".data, "Group".data, "Partners".data, "Associates".data,
   "International".data, "Intl".data, "Technologies".data, "Tech".data,
   "Software".data, "Systems".data, "Solutions".data, "Services".data,
   "Enterprises".data, "Ventures".data, "Holdings".data]

/-- `DataProcessor._clean_company_name`: remove each corporate suffix as a
whole word case-insensitively, collapse whitespace after stripping the ends,
then strip trailing commas and spaces. -/
def clean_company_name (company_name : Str) : Str :=
  if company_name = [] then company_name
  else
    let afterSuffixes :=
      company_suffixes.foldl (fun acc suf => removeWordCI suf acc) company_name
    let collapsed := collapseWS (stripWS afterSuffixes)
    stripTrailingCommaWS collapsed

/-- `DataProcessor._filter_by_employee_count`: keep a job when its employee
count normalizes to an integer at least `minCount`; a missing count, a string
without digits, excludes the job. -/
def filter_by_employee_count (minCount : Int) (jobs : List Job) : List Job :=
  jobs.filter fun j =>
    match j.employee_count with
    | .absent => false
    | .str s =>
      match firstDigitRun s with
      | some ds => (digitsToNat ds : Int) ≥ minCount
      | none => false
    | .int n => n ≥ minCount

/-- Loop of `DataProcessor._remove_duplicates`, carrying the set of seen
company LinkedIn URLs. -/
def removeDuplicatesAux : List Str → List Job → List Job
  | _, [] => []
  | seen, j :: rest =>
    if j.company_linkedin_url = [] then removeDuplicatesAux seen rest
    else if j.company_linkedin_url ∈ seen then removeDuplicatesAux seen rest
    else j :: removeDuplicatesAux (j.company_linkedin_url :: seen) rest

/-- `DataProcessor._remove_duplicates`: first occurrence of each company
LinkedIn URL wins; jobs with an empty URL are dropped. -/
def remove_duplicates (jobs : List Job) : List Job :=
  removeDuplicatesAux [] jobs

/-- `DataProcessor._clean_company_names`: on each job with a non-empty
company name, record the cleaned and the original name. -/
def clean_company_names (jobs : List Job) : List Job :=
  jobs.map fun j =>
    if j.company_name ≠ [] then
      { j with company_name_cleaned := some (clean_company_name j.company_name),
               company_name_original := some j.company_name }
    else j

/-- `DataProcessor._validate_required_fields`: keep only jobs whose company
name, job-poster name, and company website are all non-empty. -/
def validate_required_fields (jobs : List Job) : List Job :=
  jobs.filter fun j =>
    j.company_name ≠ [] && j.job_poster_name ≠ [] && j.company_website ≠ []

/-- `DataProcessor.filter_and_clean`: employee-count filter, then batch
deduplication, then company-name cleaning, then required-field validation. -/
def filter_and_clean (minCount : Int) (jobs : List Job) : List Job :=
  validate_required_fields (clean_company_names (remove_duplicates
    (filter_by_employee_count minCount jobs)))

/-- `DataProcessor.extract_name_parts`: split the full name on whitespace;
the first token is the first name and the remaining tokens joined by single
spaces form the last name. -/
def extract_name_parts (full_name : Str) : Str × Str :=
  match splitWS full_name with
  | [] => ([], [])
  | [p] => (p, [])
  | p :: ps => (p, (ps.intersperse " ".data).flatten)

/-- `DataProcessor.extract_domain_from_url`: strip a leading
`http://`/`https://`, keep the part before the first `/`, strip a leading
`www.`. -/
def extract_domain_from_url (url : Str) : Str :=
  if url = [] then []
  else
    let noScheme :=
      if startsWithL url "https://".data then url.drop 8
      else if startsWithL url "http://".data then url.drop 7
      else url
    let beforeSlash := noScheme.takeWhile (fun c => c ≠ '/')
    if startsWithL beforeSlash "www.".data then beforeSlash.drop 4
    else beforeSlash

/-- The lead record built by `DataProcessor.format_lead_data`. -/
structure Lead where
  first_name : Str
  last_name : Str
  full_name : Str
  title : Str
  company_name : Str
  company_name_original : Str
  company_website : Str
  company_domain : Str
  company_linkedin_url : Str
  job_title : Str
  job_location : Str
  employee_count : EmpVal
  company_industry : Str
  job_url : Str
  posted_date : Str
  scraped_at : Str
  email : Str
  email_confidence : Str
  compliment : Str
  status : Str
deriving DecidableEq, Repr

/-- `DataProcessor.format_lead_data`: build the lead record from a processed
job.  The `employee_count` key is copied as-is (`dict.get` with default
`''`); the cleaned company name is used when present, the raw name
otherwise. -/
def format_lead_data (j : Job) : Lead :=
  let name_parts := extract_name_parts j.job_poster_name
  { first_name := name_parts.1
    last_name := name_parts.2
    full_name := j.job_poster_name
    title := j.job_poster_title
    company_name := j.company_name_cleaned.getD j.company_name
    company_name_original := j.company_name_original.getD j.company_name
    company_website := j.company_website
    company_domain := extract_domain_from_url j.company_website
    company_linkedin_url := j.company_linkedin_url
    job_title := j.job_title
    job_location := j.job_location
    employee_count := match j.employee_count with
      | .absent => .str []
      | v => v
    company_industry := j.company_industry
    job_url := j.job_url
    posted_date := j.posted_date
    scraped_at := j.scraped_at
    email := []
    email_confidence := []
    compliment := []
    status := "new".data }

/-- The normalization pipeline end to end: `filter_and_clean` followed by
`format_lead_data` on each surviving job. -/
def normalize_and_format (minCount : Int) (jobs : List Job) : List Lead :=
  (filter_and_clean minCount jobs).map format_lead_data

/-! ## google_sheets_manager.py -/

/-- The projection of a persisted (or incoming) lead row used by
`GoogleSheetsManager.check_duplicate_leads`: its email and company name. -/
structure SheetLead where
  email : Str := []
  company_name : Str := []
deriving DecidableEq, Repr

/-- The composite identity key of a lead:
`f"{email.lower()}_{company_name.lower()}"`. -/
def leadCombo (l : SheetLead) : Str :=
  lowerStr l.email ++ '_' :: lowerStr l.company_name

/-- The set (as a list) of composite keys of existing entries having both a
non-empty email and a non-empty company name. -/
def existingCombos (existing : List SheetLead) : List Str :=
  existing.foldl
    (fun acc l =>
      if lowerStr l.email ≠ [] ∧ lowerStr l.company_name ≠ [] then
        acc ++ [leadCombo l]
      else acc)
    []

/-- The lower-cased company names of all existing entries
(`[l.get('company_name', '').lower() for l in existing_leads]`). -/
def companiesLower (existing : List SheetLead) : List Str :=
  existing.map fun l => lowerStr l.company_name

/-- Loop of `GoogleSheetsManager.check_duplicate_leads`: `combos` is the
mutable set of composite keys (grown as new leads survive), `existing` the
persisted entries. -/
def checkDupAux (existing : List SheetLead) :
    List Str → List SheetLead → List SheetLead
  | _, [] => []
  | combos, l :: rest =>
    if lowerStr l.email ≠ [] ∧ lowerStr l.company_name ≠ [] then
      if leadCombo l ∈ combos then checkDupAux existing combos rest
      else l :: checkDupAux existing (leadCombo l :: combos) rest
    else
      if lowerStr l.company_name ≠ [] ∧
          lowerStr l.company_name ∉ companiesLower existing then
        l :: checkDupAux existing combos rest
      else
        checkDupAux existing combos rest

/-- `GoogleSheetsManager.check_duplicate_leads`: when the persisted store is
empty, all new leads pass; otherwise a lead with both email and company is
kept iff its composite key is not yet seen (that key then being added), and
a lead without both is kept iff its company name is non-empty and not among
the existing company names. -/
def check_duplicate_leads (existing newLeads : List SheetLead) :
    List SheetLead :=
  if existing = [] then newLeads
  else checkDupAux existing (existingCombos existing) newLeads

/-! ## email_finder.py -/

/-- `EmailFinder._extract_domain`: remove every occurrence of `https://` and
`http://`, keep the part before the first `/`, then remove every occurrence
of `www.` (Python `str.replace` deletes all occurrences, not only leading
ones). -/
def emailFinder_extract_domain (url : Str) : Str :=
  if url = [] then []
  else
    let noScheme := replaceAll "http://".data [] (replaceAll "https://".data [] url)
    let beforeSlash := noScheme.takeWhile (fun c => c ≠ '/')
    replaceAll "www.".data [] beforeSlash

/-- The response of the Prospeo email-finder API, as branched on by
`EmailFinder._call_prospeo_api`: an HTTP 200 body with email, status and
confidence fields, an HTTP 429 (rate limit), another HTTP status, or a
request/unexpected exception. -/
inductive ProspeoResponse where
  | http200 (email status confidence : Str) : ProspeoResponse
  | http429 : ProspeoResponse
  | httpOther (code : Nat) : ProspeoResponse
  | requestError : ProspeoResponse
deriving DecidableEq, Repr

/-- The email data returned on success by `EmailFinder._call_prospeo_api`. -/
structure EmailData where
  email : Str
  confidence : Str
  status : Str
deriving DecidableEq, Repr

/-- `EmailFinder._call_prospeo_api`: only an HTTP 200 response with a
non-empty email and status `VALID` yields email data; a rate limit, another
status or an exception yields `none`. -/
def call_prospeo_api (resp : ProspeoResponse) : Option EmailData :=
  match resp with
  | .http200 email status confidence =>
    if email ≠ [] && status = "VALID".data then
      some { email := email, confidence := confidence, status := status }
    else none
  | .http429 => none
  | .httpOther _ => none
  | .requestError => none

/-- A lead as read and written by the email-enrichment stage. -/
structure ELead where
  job_poster_name : Str := []
  company_website : Str := []
  email : Str := []
  email_confidence : Str := []
  email_status : Str := []
deriving DecidableEq, Repr

/-- `EmailFinder.find_email`: short-circuit to `none` when the poster name is
empty, has fewer than two whitespace-separated parts, or the website is
empty; otherwise branch on the API response for this lead. -/
def find_email (api : ELead → ProspeoResponse) (l : ELead) :
    Option EmailData :=
  if l.job_poster_name = [] then none
  else if (splitWS l.job_poster_name).length < 2 then none
  else if l.company_website = [] then none
  else call_prospeo_api (api l)

/-- An external-call event in an enrichment batch run: one per-record
invocation of the enrichment operation, or a wait of the configured
interval. -/
inductive Event where
  | invoke : Event
  | wait (interval : Nat) : Event
deriving DecidableEq, Repr

/-- The per-lead body of `EmailFinder.find_emails_batch`: on success the
email, confidence, and the API status string are written; on any failure the
email is emptied and the status is set to `not_found`. -/
def email_stage_update (api : ELead → ProspeoResponse) (l : ELead) : ELead :=
  match find_email api l with
  | some d =>
    { l with email := d.email, email_confidence := d.confidence,
             email_status := d.status }
  | none =>
    { l with email := [], email_confidence := [],
             email_status := "not_found".data }

/-- `EmailFinder.find_emails_batch`: process each lead in input order; after
every invocation (success or failure) sleep for the configured wait time.
The second component is the trace of external-call events. -/
def find_emails_batch (wait : Nat) (api : ELead → ProspeoResponse) :
    List ELead → List ELead × List Event
  | [] => ([], [])
  | l :: rest =>
    let r := email_stage_update api l
    let p := find_emails_batch wait api rest
    (r :: p.fst, Event.invoke :: Event.wait wait :: p.snd)

/-! ## ai_compliment_generator.py -/

/-- The fallback compliment templates of
`AIComplimentGenerator.fallback_compliments`, in list order. -/
def fallback_compliments : List Str :=
  ["I've been following your company's growth and I'm impressed by your innovative approach.".data,
   "Your company's mission really resonates with me, and I love what you're building.".data,
   "I've heard great things about your team and the work you're doing.".data,
   "Your company's recent achievements have caught my attention, and I'm excited about your vision.".data,
   "I appreciate the innovative solutions your company is developing.".data,
   "Your company's commitment to excellence is truly inspiring.".data,
   "I've been impressed by your company's market presence and growth trajectory.".data,
   "Your company's approach to solving industry challenges is remarkable.".data,
   "I admire your company's dedication to customer success.".data,
   "Your company's culture and values really stand out in the industry.".data]

/-- The apology/refusal phrases rejected by
`AIComplimentGenerator._validate_compliment`. -/
def invalid_phrases : List Str :=
  ["I'm sorry".data, "I cannot".data, "I don't have".data, "I'm unable".data,
   "I cannot provide".data, "I don't have access".data, "I'm not able".data,
   "I cannot generate".data, "I don't have information".data,
   "I cannot create".data]

/-- `AIComplimentGenerator._validate_compliment`: reject an empty text, a
text shorter than 20 or longer than 300 characters, a text containing any
refusal phrase case-insensitively, or one with more than two `!` or more
than one `?`. -/
def validate_compliment (c : Str) : Bool :=
  if c = [] then false
  else if c.length < 20 || c.length > 300 then false
  else if invalid_phrases.any
      (fun p => containsSub (lowerStr p) (lowerStr c)) then false
  else if c.count '!' > 2 || c.count '?' > 1 then false
  else true

/-- `AIComplimentGenerator._get_fallback_compliment`: pick the template at
the random draw's index, then substitute the company name for every
occurrence of `your company` and `Your company`, but only when the company
name is non-empty and shorter than 50 characters. -/
def get_fallback_compliment (draw : Nat) (company_name : Str) : Str :=
  let compliment := fallback_compliments.getD draw []
  if company_name ≠ [] ∧ company_name.length < 50 then
    replaceAll "Your company".data company_name
      (replaceAll "your company".data company_name compliment)
  else compliment

/-- The outcome of the OpenAI chat-completion call made by
`AIComplimentGenerator._generate_ai_compliment`: a generated text, a rate
limit, an API error, or another exception. -/
inductive AIResult where
  | text (t : Str) : AIResult
  | rateLimit : AIResult
  | apiError : AIResult
  | exception : AIResult
deriving DecidableEq, Repr

/-- `AIComplimentGenerator._generate_ai_compliment`: strip the generated
text and keep it only when it passes validation; every error and every
invalid text yields `none`. -/
def generate_ai_compliment (resp : AIResult) : Option Str :=
  match resp with
  | .text t =>
    let stripped := stripWS t
    if validate_compliment stripped then some stripped else none
  | .rateLimit => none
  | .apiError => none
  | .exception => none

/-- `AIComplimentGenerator.generate_compliment`: the AI-generated text when
it exists and validates, the fallback compliment otherwise. -/
def generate_compliment (draw : Nat) (resp : AIResult)
    (company_name : Str) : Str :=
  match generate_ai_compliment resp with
  | some c => c
  | none => get_fallback_compliment draw company_name

/-- A lead as read and written by the compliment-enrichment stage. -/
structure CLead where
  company_name : Str := []
  website_content : Str := []
  compliment : Str := []
deriving DecidableEq, Repr

/-- `AIComplimentGenerator.generate_compliments_batch`: process each lead in
input order with no sleep between invocations.  The second component is the
trace of external-call events. -/
def generate_compliments_batch (ai : CLead → AIResult) (draw : CLead → Nat) :
    List CLead → List CLead × List Event
  | [] => ([], [])
  | l :: rest =>
    let r := { l with compliment :=
      generate_compliment (draw l) (ai l) l.company_name }
    let p := generate_compliments_batch ai draw rest
    (r :: p.fst, Event.invoke :: p.snd)

/-! ## Specification-side definition for the domain-extraction refinement -/

/-- Strip the first matching pattern of `pats` from the front of `s`. -/
def dropFirstMatching : List Str → Str → Str
  | [], s => s
  | p :: ps, s => if startsWithL s p then s.drop p.length else dropFirstMatching ps s

/-- Modelled from the spec: domain extraction strips a leading scheme
(`http://`/`https://`), strips everything from the first `/` onward, and
strips a leading `www.`. -/
def domainSpec (url : Str) : Str :=
  let noScheme := dropFirstMatching ["https://".data, "http://".data] url
  let beforeSlash := noScheme.takeWhile (fun c => c ≠ '/')
  dropFirstMatching ["www.".data] beforeSlash

/-! ## Concrete inputs used by the claims -/

/-- The raw posting of the end-to-end scenario: employee count
`"250-500 employees"`, company `"Acme Solutions Inc"`, poster
`"John Smith"`, website `"https://www.acme.com/careers"`. -/
def acmeJob : Job :=
  { employee_count := .str "250-500 employees".data
    company_name := "Acme Solutions Inc".data
    company_linkedin_url := "https://www.linkedin.com/company/acme".data
    job_poster_name := "John Smith".data
    company_website := "https://www.acme.com/careers".data }

/-- A raw posting whose company name consists only of corporate-suffix
tokens. -/
def techJob : Job :=
  { employee_count := .str "300 employees".data
    company_name := "Tech Solutions Inc".data
    company_linkedin_url := "https://www.linkedin.com/company/techsol".data
    job_poster_name := "Jane Doe".data
    company_website := "https://techsolutions.example.com".data }

/-- C1: for the end-to-end raw posting, normalization keeps the record, but
the formatted lead's `employee_count` is the raw string
`"250-500 employees"`, not the integer 250, and its cleaned company name is
`"Acme"`, not `"Acme Solutions"` — `Solutions` is itself a corporate-suffix
token and is removed. -/
theorem c1_counterexample :
    (normalize_and_format 200 [acmeJob]).map
        (fun l => (l.employee_count, l.company_name)) =
      [(EmpVal.str "250-500 employees".data, "Acme".data)] ∧
    EmpVal.str "250-500 employees".data ≠ EmpVal.int 250 ∧
    "Acme".data ≠ "Acme Solutions".data := by decide

/-- C1 (amended): the end-to-end raw posting survives normalization, and
the formatted lead has `first_name = "John"`, `last_name = "Smith"`,
`company_domain = "acme.com"`, cleaned company name `"Acme"`, and the raw
string `"250-500 employees"` as its `employee_count` (the extracted 250 is
used only for the threshold filter). -/
theorem c1_end_to_end :
    (normalize_and_format 200 [acmeJob]).map
        (fun l => (l.first_name, l.last_name, l.company_domain,
                   l.company_name, l.employee_count)) =
      [("John".data, "Smith".data, "acme.com".data, "Acme".data,
        EmpVal.str "250-500 employees".data)] := by decide

/-- C9: a raw posting whose company name is non-empty but consists only of
suffix tokens passes required-field validation (the raw name is checked),
yet the formatted lead's cleaned `company_name` is empty — the pipeline
emits a non-rejected lead with an empty company name. -/
theorem c9_empty_company_survives :
    techJob.company_name ≠ [] ∧
    (filter_and_clean 200 [techJob]).length = 1 ∧
    (normalize_and_format 200 [techJob]).map Lead.company_name = [[]] := by
  decide

/-- A persisted store holding one entry with email `a@x.com` and company
`Acme`. -/
def acmeStore : List SheetLead :=
  [{ email := "a@x.com".data, company_name := "Acme".data }]

/-- A persisted store holding one entry unrelated to the incoming batches
used against it. -/
def zedStore : List SheetLead :=
  [{ email := "z@z.com".data, company_name := "Zed".data }]

/-- C2 counterexample: a new lead with a non-empty email but an empty
company name is suppressed by `check_duplicate_leads` even though its
composite key is not among the existing entries and it does have an email —
so suppression is not equivalent to the stated key-presence condition. -/
theorem c2_counterexample :
    check_duplicate_leads acmeStore
      [{ email := "b@y.com".data, company_name := [] }] = [] ∧
    lowerStr "b@y.com".data ≠ [] ∧
    leadCombo { email := "b@y.com".data, company_name := [] } ∉
      existingCombos acmeStore := by decide

/-- C2 (amended): for a single new lead whose lower-cased company name is
non-empty, persisted-store deduplication suppresses it iff its lower-cased
email is non-empty and its composite (email, company) key is already among
the existing composite keys, or it has no email and its lower-cased company
name alone is already among the existing company names.  (Leads with an
empty company name are always suppressed, regardless of key presence.) -/
theorem c2_store_dedup_iff (existing : List SheetLead) (l : SheetLead)
    (hc : lowerStr l.company_name ≠ []) :
    check_duplicate_leads existing [l] = [] ↔
      ((lowerStr l.email ≠ [] ∧ leadCombo l ∈ existingCombos existing) ∨
       (lowerStr l.email = [] ∧
        lowerStr l.company_name ∈ companiesLower existing)) := by
  by_cases hex : existing = []
  · subst hex
    simp [check_duplicate_leads, existingCombos, companiesLower]
  · rw [check_duplicate_leads, if_neg hex]
    by_cases he : lowerStr l.email = []
    · rw [checkDupAux, if_neg (by simp [he])]
      by_cases hm : lowerStr l.company_name ∈ companiesLower existing
      · rw [if_neg (by simp [hm])]
        simp [checkDupAux, he, hm]
      · rw [if_pos ⟨hc, hm⟩]
        simp [checkDupAux, he, hm]
    · rw [checkDupAux, if_pos ⟨he, hc⟩]
      by_cases hm : leadCombo l ∈ existingCombos existing
      · rw [if_pos hm]
        simp [checkDupAux, he, hm]
      · rw [if_neg hm]
        simp [checkDupAux, he, hm]

/-- C2 witness: the existing pair (`a@x.com`, `Acme`) suppresses a new lead
with exactly that pair. -/
theorem c2_store_dedup_iff_witness :
    check_duplicate_leads acmeStore
      [{ email := "a@x.com".data, company_name := "Acme".data }] = [] :=
  (c2_store_dedup_iff acmeStore
    { email := "a@x.com".data, company_name := "Acme".data }
    (by decide)).mpr (Or.inl (by decide))

/-- C3 counterexample: two email-less leads sharing the company name `Acme`
both survive one pass against a store that contains neither (company-only
keys are never added to the in-memory sets); and when the store is empty,
even two leads sharing a full composite key both survive (the pass returns
the batch unchanged). -/
theorem c3_counterexample :
    check_duplicate_leads zedStore
      [{ email := [], company_name := "Acme".data },
       { email := [], company_name := "Acme".data }] =
      [{ email := [], company_name := "Acme".data },
       { email := [], company_name := "Acme".data }] ∧
    check_duplicate_leads []
      [{ email := "p@q.com".data, company_name := "Acme".data },
       { email := "p@q.com".data, company_name := "Acme".data }] =
      [{ email := "p@q.com".data, company_name := "Acme".data },
       { email := "p@q.com".data, company_name := "Acme".data }] := by decide

/-- C3 (amended): only composite (email, company) keys are added to the
in-memory key set immediately.  When the persisted store is non-empty, for
a batch of two leads sharing a non-empty composite key only the first-seen
lead can survive: the pass returns `[]` when the key is already persisted
and `[first lead]` otherwise.  Company-only keys are not tracked within the
batch, and with an empty store the pass does no deduplication at all. -/
theorem c3_composite_first_wins (existing : List SheetLead)
    (l1 l2 : SheetLead) (hex : existing ≠ [])
    (he1 : lowerStr l1.email ≠ []) (hc1 : lowerStr l1.company_name ≠ [])
    (he : lowerStr l2.email = lowerStr l1.email)
    (hc : lowerStr l2.company_name = lowerStr l1.company_name) :
    check_duplicate_leads existing [l1, l2] =
      if leadCombo l1 ∈ existingCombos existing then [] else [l1] := by
  have hcombo : leadCombo l2 = leadCombo l1 := by
    simp [leadCombo, he, hc]
  rw [check_duplicate_leads, if_neg hex]
  rw [checkDupAux, if_pos ⟨he1, hc1⟩]
  by_cases hm : leadCombo l1 ∈ existingCombos existing
  · rw [if_pos hm, if_pos hm]
    rw [checkDupAux, if_pos ⟨by rw [he]; exact he1, by rw [hc]; exact hc1⟩,
        if_pos (by rw [hcombo]; exact hm)]
    rfl
  · rw [if_neg hm, if_neg hm]
    rw [checkDupAux, if_pos ⟨by rw [he]; exact he1, by rw [hc]; exact hc1⟩,
        if_pos (by rw [hcombo]; exact List.mem_cons_self _ _)]
    rfl

/-- C3 witness: against a non-empty unrelated store, of two leads sharing
the composite key (`p@q.com`, `Acme`) only the first survives. -/
theorem c3_composite_first_wins_witness :
    check_duplicate_leads zedStore
      [{ email := "p@q.com".data, company_name := "Acme".data },
       { email := "p@q.com".data, company_name := "Acme".data }] =
      (if leadCombo { email := "p@q.com".data, company_name := "Acme".data } ∈
          existingCombos zedStore then ([] : List SheetLead)
       else [{ email := "p@q.com".data, company_name := "Acme".data }]) :=
  c3_composite_first_wins zedStore _ _ (by decide) (by decide) (by decide)
    rfl rfl

/-- A lead with a two-token poster name and a non-empty website, so the
email stage reaches the external call. -/
def rlLead : ELead :=
  { job_poster_name := "John Smith".data
    company_website := "https://www.acme.com".data }

/-- A lead for the compliment stage. -/
def compLeadA : CLead := { company_name := "Acme".data }

/-- A second lead for the compliment stage. -/
def compLeadB : CLead := { company_name := "Beta".data }

/-- C4 counterexample: the compliment stage's batch runner performs its two
per-record invocations back to back — its event trace contains no wait at
all, so the configured delay does not separate successive external calls in
every enrichment batch run. -/
theorem c4_counterexample :
    (generate_compliments_batch (fun _ => AIResult.rateLimit) (fun _ => 0)
      [compLeadA, compLeadB]).snd = [Event.invoke, Event.invoke] := by decide

/-- C4 (amended): the email stage does satisfy the pacing contract — in its
batch trace, every per-record invocation (success or failure) is immediately
followed by a wait of the configured interval — but the compliment stage
performs no inter-call delay at all. -/
theorem c4_email_stage_pacing (w : Nat) (api : ELead → ProspeoResponse)
    (leads : List ELead) (i : Nat)
    (h : (find_emails_batch w api leads).snd[i]? = some Event.invoke) :
    (find_emails_batch w api leads).snd[i + 1]? = some (Event.wait w) := by
  induction leads generalizing i with
  | nil => simp [find_emails_batch] at h
  | cons l rest ih =>
    match i with
    | 0 => simp [find_emails_batch]
    | 1 => simp [find_emails_batch] at h
    | (n + 2) =>
      simp only [find_emails_batch, List.getElem?_cons_succ] at h ⊢
      exact ih n h

/-- C4 witness: in a one-lead email batch with interval 1, the invocation at
index 0 is followed by the wait at index 1. -/
theorem c4_email_stage_pacing_witness :
    (find_emails_batch 1 (fun _ => ProspeoResponse.http429) [rlLead]).snd[1]? =
      some (Event.wait 1) :=
  c4_email_stage_pacing 1 (fun _ => ProspeoResponse.http429) [rlLead] 0
    (by decide)

/-- C5: whenever compliment generation returns no valid text — the call
fails, errors, or its text fails validation (too short, too long, a refusal
phrase such as `I cannot`, or excess punctuation) — `generate_compliment`
returns the fallback compliment, in which `your company`/`Your company` are
substituted by the company name exactly when that name is non-empty and
under 50 characters. -/
theorem c5_fallback_on_failure (draw : Nat) (resp : AIResult) (company : Str)
    (h : generate_ai_compliment resp = none) :
    generate_compliment draw resp company =
      get_fallback_compliment draw company ∧
    get_fallback_compliment draw company =
      (if company ≠ [] ∧ company.length < 50 then
        replaceAll "Your company".data company
          (replaceAll "your company".data company
            (fallback_compliments.getD draw []))
      else fallback_compliments.getD draw []) := by
  refine ⟨?_, rfl⟩
  rw [generate_compliment, h]

/-- C5 witness: a generated text containing `I cannot` is rejected and the
fallback with the company name substituted is returned. -/
theorem c5_fallback_on_failure_witness :
    generate_compliment 2 (AIResult.text
      "I cannot generate a compliment for this company.".data) "Acme".data =
      get_fallback_compliment 2 "Acme".data ∧
    get_fallback_compliment 2 "Acme".data =
      (if ("Acme".data : Str) ≠ [] ∧ ("Acme".data : Str).length < 50 then
        replaceAll "Your company".data "Acme".data
          (replaceAll "your company".data "Acme".data
            (fallback_compliments.getD 2 []))
      else fallback_compliments.getD 2 []) :=
  c5_fallback_on_failure 2
    (AIResult.text "I cannot generate a compliment for this company.".data)
    "Acme".data (by decide)

/-- C6 counterexample: two invocations of the fallback path with the same
company name return different compliments when the random draw differs —
fallback selection is not deterministic in its inputs. -/
theorem c6_counterexample :
    get_fallback_compliment 0 "Acme".data ≠
      get_fallback_compliment 1 "Acme".data := by decide

/-- C6 (amended): fallback selection is a random choice among the ten fixed
templates; only the personalization of the selected template is determined
by the inputs.  For every in-range draw, the result is one of the ten
templates with the company-name substitution applied under the stated
condition. -/
theorem c6_fallback_template_membership (draw : Nat) (company : Str)
    (h : draw < 10) :
    get_fallback_compliment draw company ∈
      fallback_compliments.map (fun t =>
        if company ≠ [] ∧ company.length < 50 then
          replaceAll "Your company".data company
            (replaceAll "your company".data company t)
        else t) := by
  have hm : fallback_compliments.getD draw [] ∈ fallback_compliments := by
    interval_cases draw <;> decide
  simpa [get_fallback_compliment] using
    List.mem_map_of_mem (fun t =>
      if company ≠ [] ∧ company.length < 50 then
        replaceAll "Your company".data company
          (replaceAll "your company".data company t)
      else t) hm

/-- C6 witness: for draw 3 and company `Acme`, the fallback result is one of
the personalized templates. -/
theorem c6_fallback_template_membership_witness :
    get_fallback_compliment 3 "Acme".data ∈
      fallback_compliments.map (fun t =>
        if ("Acme".data : Str) ≠ [] ∧ ("Acme".data : Str).length < 50 then
          replaceAll "Your company".data "Acme".data
            (replaceAll "your company".data "Acme".data t)
        else t) :=
  c6_fallback_template_membership 3 "Acme".data (by decide)

/-- C7 counterexample: the two domain-extraction routines disagree — on
`awww.example.com` the Normalizer's routine strips nothing while the email
stage's routine deletes the internal `www.` — so domain extraction is not
applied uniformly. -/
theorem c7_counterexample :
    extract_domain_from_url "awww.example.com".data ≠
      emailFinder_extract_domain "awww.example.com".data := by decide

/-- C7 (amended): the Normalizer's `extract_domain_from_url` implements the
described algorithm (strip a leading scheme, cut at the first `/`, strip a
leading `www.`) for every URL; the email stage's `_extract_domain` instead
deletes every occurrence of the scheme strings and of `www.`, so the two
agree on the worked example `https://www.acme.com/careers` (both yield
`acme.com`) but not on all URLs. -/
theorem c7_domain_extraction :
    (∀ url : Str, extract_domain_from_url url = domainSpec url) ∧
    extract_domain_from_url "https://www.acme.com/careers".data =
      "acme.com".data ∧
    emailFinder_extract_domain "https://www.acme.com/careers".data =
      "acme.com".data ∧
    emailFinder_extract_domain "awww.example.com".data =
      "aexample.com".data := by
  refine ⟨?_, by decide, by decide, by decide⟩
  intro url
  by_cases h0 : url = []
  · subst h0; decide
  · rw [extract_domain_from_url, if_neg h0]
    rfl

/-- C8 counterexample: when the collaborator signals rate limiting, the
email stage still records status `not_found`, not `rate_limited`. -/
theorem c8_counterexample :
    ((find_emails_batch 1 (fun _ => ProspeoResponse.http429) [rlLead]).fst.map
      ELead.email_status) = ["not_found".data] ∧
    "not_found".data ≠ "rate_limited".data := by decide

/-- C8 (amended): on every failure of the email lookup — not found, rate
limited, or an unexpected fault — the lead's email is set to empty and its
`email_status` to the single failure value `not_found`, and the lead
continues through the batch (it appears in the results). -/
theorem c8_failure_status (w : Nat) (api : ELead → ProspeoResponse)
    (l : ELead) (h : find_email api l = none) :
    (find_emails_batch w api [l]).fst =
      [{ l with email := [], email_confidence := [],
                email_status := "not_found".data }] := by
  simp [find_emails_batch, email_stage_update, h]

/-- C8 witness: a request error on a lead that reaches the external call
yields an empty email and status `not_found`, and the lead stays in the
results. -/
theorem c8_failure_status_witness :
    (find_emails_batch 1 (fun _ => ProspeoResponse.requestError) [rlLead]).fst =
      [{ rlLead with email := [], email_confidence := [],
                     email_status := "not_found".data }] :=
  c8_failure_status 1 (fun _ => ProspeoResponse.requestError) rlLead
    (by decide)

/-- C10: a new lead with a non-empty email and an empty company name matches
no existing identity key, yet `check_duplicate_leads` silently omits it from
its output — the pass does not return every non-duplicate input lead. -/
theorem c10_nonduplicate_dropped :
    check_duplicate_leads acmeStore
      [{ email := "c@z.com".data, company_name := [] }] = [] ∧
    ("c@z.com".data : Str) ≠ [] ∧
    leadCombo { email := "c@z.com".data, company_name := [] } ∉
      existingCombos acmeStore ∧
    lowerStr ([] : Str) ∉ companiesLower acmeStore := by decide
